import Mathlib

/-!
Shallow embedding of the provider abstraction and orchestration runtime of the
groq-code-cli repository (src/providers/base.ts, src/providers/index.ts,
src/providers/groq.ts, src/providers/ollama.ts, src/providers/lmstudio.ts and
src/core/provider-manager.ts), together with theorems checking the
specification's claims about it.

Network I/O (fetch round trips, SDK calls) is modelled by oracle parameters:
each adapter probe or transport call is represented by an `Except`/outcome
value saying what that call would have produced, and JavaScript exceptions are
represented by the `Except.error` constructor.  Mutable object state
(`ProviderManager`'s registry map, active provider, and the cleanup calls it
performs) is threaded explicitly through the functions as a state value.
-/

namespace GroqCli

/-- The closed set of backend identities: `ProviderName = keyof typeof PROVIDERS`
with `PROVIDERS = { groq, ollama, lmstudio }` (src/providers/index.ts). -/
inductive ProviderName
  | groq
  | ollama
  | lmstudio
deriving DecidableEq, Repr

/-- The `name` field of each provider class (`'groq'`, `'ollama'`, `'lmstudio'`). -/
def providerNameStr : ProviderName → String
  | .groq => "groq"
  | .ollama => "ollama"
  | .lmstudio => "lmstudio"

/-- `getAvailableProviders()` of src/providers/index.ts: `Object.keys(PROVIDERS)`,
in declaration order. -/
def getAvailableProviders : List ProviderName :=
  [.groq, .ollama, .lmstudio]

/-- `ProviderStatus` of src/providers/base.ts. -/
structure ProviderStatus where
  available : Bool
  connected : Bool
  version : Option String := none
  endpoint : Option String := none
  error : Option String := none
  modelsLoaded : Option Nat := none
deriving DecidableEq, Repr

/-- `Model` of src/providers/base.ts (backend-specific optional fields included). -/
structure Model where
  id : String
  name : String
  description : Option String := none
  contextLength : Option Nat := none
  supportsFunctions : Option Bool := none
  size : Option Nat := none
  format : Option String := none
  family : Option String := none
  ownedBy : Option String := none
  created : Option String := none
deriving DecidableEq, Repr

/-- `ProviderDetectionResult` of src/providers/base.ts.  In the source the
`provider` field is the provider's name string; `detectProviders` only ever
stores one of the three known names there, so it is typed by the closed enum. -/
structure ProviderDetectionResult where
  provider : ProviderName
  available : Bool
  status : ProviderStatus
  models : Option (List Model) := none
deriving DecidableEq, Repr

/-- What one adapter's probe methods would do if called: `Except.error msg`
models the method throwing a JavaScript exception with message `msg`, and
`Except.ok` models it resolving.  This is the oracle input to the detection
scan. -/
structure AdapterBehavior where
  isAvailable : Except String Bool
  getStatus : Except String ProviderStatus
  listModels : Except String (List Model)

/-- The body of the `for` loop of `ProviderManager.detectProviders` for one
provider name: the outer try/catch folds a throw from `isAvailable` or
`getStatus` into an error Detection Result, and the inner try/catch around
`listModels` (only reached when `status.connected`) swallows its failure,
leaving `models` undefined. -/
def detectOne (name : ProviderName) (b : AdapterBehavior) : ProviderDetectionResult :=
  match b.isAvailable with
  | .error e =>
      { provider := name
        available := false
        status := { available := false, connected := false, error := some e } }
  | .ok available =>
    match b.getStatus with
    | .error e =>
        { provider := name
          available := false
          status := { available := false, connected := false, error := some e } }
    | .ok status =>
      let models : Option (List Model) :=
        if status.connected then
          match b.listModels with
          | .ok ms => some ms
          | .error _ => none
        else none
      { provider := name, available := available, status := status, models := models }

/-- `ProviderManager.detectProviders`: one Detection Result is pushed per name in
`getAvailableProviders()`, whatever the adapters do.  The function is total over
arbitrary (including always-throwing) adapter behaviors: every exception path of
the source is folded into the result list, so no exception escapes. -/
def detectProviders (behavior : ProviderName → AdapterBehavior) :
    List ProviderDetectionResult :=
  getAvailableProviders.map (fun n => detectOne n (behavior n))

theorem detectOne_provider (n : ProviderName) (b : AdapterBehavior) :
    (detectOne n b).provider = n := by
  unfold detectOne
  cases b.isAvailable with
  | error e => rfl
  | ok a =>
    cases b.getStatus with
    | error e => rfl
    | ok st => rfl

/-- The adapter-instance registry of `ProviderManager` (`private providers = new
Map<ProviderName, LLMProvider>()`).  Adapter instances are identified by the
order of their construction: `nextId` counts constructions, and `entries` is the
map from name to the id of the instance stored for it. -/
structure Registry where
  entries : List (ProviderName × Nat) := []
  nextId : Nat := 0
deriving DecidableEq, Repr

/-- `Map.get` on the registry: first (and, since keys are inserted at most once,
only) binding of the name. -/
def lookupInstance : List (ProviderName × Nat) → ProviderName → Option Nat
  | [], _ => none
  | e :: t, n => if e.1 == n then some e.2 else lookupInstance t n

/-- `ProviderManager.getProviderInstance`: if the map has no instance for
`name`, construct one (`createProvider(name)`) and store it; return the stored
instance. -/
def getProviderInstance (r : Registry) (n : ProviderName) : Nat × Registry :=
  match lookupInstance r.entries n with
  | some i => (i, r)
  | none =>
      (r.nextId, { entries := r.entries ++ [(n, r.nextId)], nextId := r.nextId + 1 })

theorem lookupInstance_append_new (l : List (ProviderName × Nat)) (n : ProviderName)
    (i : Nat) (h : lookupInstance l n = none) :
    lookupInstance (l ++ [(n, i)]) n = some i := by
  induction l with
  | nil => simp [lookupInstance]
  | cons e t ih =>
    by_cases he : e.1 = n
    · simp [lookupInstance, he] at h
    · simp only [lookupInstance, List.cons_append, beq_iff_eq, if_neg he] at h ⊢
      exact ih h

theorem lookupInstance_append_old (l t : List (ProviderName × Nat)) (m : ProviderName)
    (j : Nat) (h : lookupInstance l m = some j) :
    lookupInstance (l ++ t) m = some j := by
  induction l with
  | nil => simp [lookupInstance] at h
  | cons e l ih =>
    by_cases he : e.1 = m
    · simp only [lookupInstance, beq_iff_eq, if_pos he] at h
      simp only [lookupInstance, List.cons_append, beq_iff_eq, if_pos he]
      exact h
    · simp only [lookupInstance, beq_iff_eq, if_neg he] at h
      simp only [lookupInstance, List.cons_append, beq_iff_eq, if_neg he]
      exact ih h

theorem getProviderInstance_lookup (r : Registry) (n : ProviderName) :
    lookupInstance (getProviderInstance r n).2.entries n =
      some (getProviderInstance r n).1 := by
  unfold getProviderInstance
  cases h : lookupInstance r.entries n with
  | some i => simp [h]
  | none => simpa [h] using lookupInstance_append_new r.entries n r.nextId h

theorem getProviderInstance_hit (r : Registry) (n : ProviderName) (i : Nat)
    (h : lookupInstance r.entries n = some i) :
    getProviderInstance r n = (i, r) := by
  unfold getProviderInstance
  simp [h]

/-- C8: two successive calls of the registry's get-or-create operation return
the same adapter instance (and the second call does not change the registry at
all), and a get-or-create call never evicts or replaces any previously stored
instance: every binding present before the call is still present, unchanged,
after it. -/
theorem getProviderInstance_memoized (r : Registry) (n : ProviderName) :
    (getProviderInstance (getProviderInstance r n).2 n).1 = (getProviderInstance r n).1 ∧
    (getProviderInstance (getProviderInstance r n).2 n).2 = (getProviderInstance r n).2 ∧
    ∀ (m : ProviderName) (j : Nat), lookupInstance r.entries m = some j →
      lookupInstance (getProviderInstance r n).2.entries m = some j := by
  refine ⟨?_, ?_, ?_⟩
  · rw [getProviderInstance_hit _ n _ (getProviderInstance_lookup r n)]
  · rw [getProviderInstance_hit _ n _ (getProviderInstance_lookup r n)]
  · intro m j hm
    unfold getProviderInstance
    cases h : lookupInstance r.entries n with
    | some i => simpa [h] using hm
    | none => simpa [h] using lookupInstance_append_old r.entries _ m j hm

/-- Witness for C8 at a concrete registry that already holds a groq instance:
the second get-or-create of ollama returns the same instance as the first, and
the groq binding survives. -/
theorem getProviderInstance_memoized_witness :
    (getProviderInstance
        (getProviderInstance ⟨[(ProviderName.groq, 0)], 1⟩ ProviderName.ollama).2
        ProviderName.ollama).1 =
      (getProviderInstance ⟨[(ProviderName.groq, 0)], 1⟩ ProviderName.ollama).1 ∧
    lookupInstance
        (getProviderInstance ⟨[(ProviderName.groq, 0)], 1⟩ ProviderName.ollama).2.entries
        ProviderName.groq = some 0 :=
  ⟨(getProviderInstance_memoized ⟨[(ProviderName.groq, 0)], 1⟩ ProviderName.ollama).1,
   (getProviderInstance_memoized ⟨[(ProviderName.groq, 0)], 1⟩ ProviderName.ollama).2.2
     ProviderName.groq 0 rfl⟩

/-- C2: `detectProviders` is a total function of the adapters' behavior — it is
defined (returns a plain list, raising nothing) even when every probe of every
adapter throws — and its result always has exactly one Detection Result per
known provider identity, in the fixed order groq, ollama, lmstudio (length 3). -/
theorem detectProviders_never_raises (behavior : ProviderName → AdapterBehavior) :
    (detectProviders behavior).length = 3 ∧
    (detectProviders behavior).map (fun r => r.provider) = getAvailableProviders := by
  constructor
  · simp [detectProviders, getAvailableProviders]
  · simp [detectProviders, getAvailableProviders, detectOne_provider]

/-- `ProviderConfig` of src/core/provider-manager.ts (the backend-specific
`config` record is irrelevant to selection and omitted). -/
structure ProviderConfig where
  name : ProviderName
  enabled : Bool
  priority : Int
deriving DecidableEq, Repr

/-- `ProviderManager`'s default provider configurations (the constructor calls
`initializeDefaultConfigs`): groq priority 1, ollama priority 2, lmstudio
priority 3, all enabled. -/
def defaultProviderConfigs : List ProviderConfig :=
  [{ name := .groq, enabled := true, priority := 1 },
   { name := .ollama, enabled := true, priority := 2 },
   { name := .lmstudio, enabled := true, priority := 3 }]

/-- One step of the stable insertion sort modelling
`[...]. sort((a, b) => a.priority - b.priority)`: JavaScript's `Array.sort` is
stable, and a stable insertion sort by `≤` on priorities computes the identical
ordering. -/
def insertByPriority (x : ProviderConfig) : List ProviderConfig → List ProviderConfig
  | [] => [x]
  | y :: ys =>
    if x.priority ≤ y.priority then x :: y :: ys else y :: insertByPriority x ys

/-- Stable sort of the configs, ascending by `priority`. -/
def sortByPriority : List ProviderConfig → List ProviderConfig
  | [] => []
  | x :: xs => insertByPriority x (sortByPriority xs)

/-- The per-config test of `autoSelectProvider`'s loop:
`const result = detection.find(d => d.provider === config.name)` followed by
`result?.available && result.status.connected`. -/
def isConnectedCandidate (detection : List ProviderDetectionResult)
    (c : ProviderConfig) : Bool :=
  match detection.find? (fun d => d.provider == c.name) with
  | some r => r.available && r.status.connected
  | none => false

/-- The `for` loop of `ProviderManager.autoSelectProvider` over the sorted,
enabled configs: the first connected-and-available candidate whose
`initialize()` succeeds (`initOk`) is returned; an `initialize()` throw is
caught and the loop continues. -/
def autoSelectLoop (detection : List ProviderDetectionResult)
    (initOk : ProviderName → Bool) : List ProviderConfig → Option ProviderName
  | [] => none
  | c :: rest =>
    if isConnectedCandidate detection c then
      if initOk c.name then some c.name
      else autoSelectLoop detection initOk rest
    else autoSelectLoop detection initOk rest

/-- The selection logic of `ProviderManager.autoSelectProvider` given the
detection pass's outcome: filter to enabled configs, sort ascending by
priority, pick the first connected candidate. -/
def autoSelectName (configs : List ProviderConfig)
    (detection : List ProviderDetectionResult) (initOk : ProviderName → Bool) :
    Option ProviderName :=
  autoSelectLoop detection initOk (sortByPriority (configs.filter (fun c => c.enabled)))

/-- `ProviderManager.autoSelectProvider`: runs `detectProviders()` and applies
the selection logic.  (The source additionally assigns the selected adapter to
`this.activeProvider`; the selection result is what the claims are about.) -/
def autoSelectProvider (configs : List ProviderConfig)
    (behavior : ProviderName → AdapterBehavior) (initOk : ProviderName → Bool) :
    Option ProviderName :=
  autoSelectName configs (detectProviders behavior) initOk

theorem mem_insertByPriority (x a : ProviderConfig) (l : List ProviderConfig) :
    a ∈ insertByPriority x l ↔ a = x ∨ a ∈ l := by
  induction l with
  | nil => simp [insertByPriority]
  | cons y ys ih =>
    by_cases h : x.priority ≤ y.priority
    · simp [insertByPriority, h]
    · simp only [insertByPriority, if_neg h, List.mem_cons, ih]
      tauto

theorem mem_sortByPriority (a : ProviderConfig) (l : List ProviderConfig) :
    a ∈ sortByPriority l ↔ a ∈ l := by
  induction l with
  | nil => simp [sortByPriority]
  | cons x xs ih => simp [sortByPriority, mem_insertByPriority, ih]

theorem pairwise_insertByPriority (x : ProviderConfig) (l : List ProviderConfig)
    (h : l.Pairwise (fun a b => a.priority ≤ b.priority)) :
    (insertByPriority x l).Pairwise (fun a b => a.priority ≤ b.priority) := by
  induction l with
  | nil => simp [insertByPriority]
  | cons y ys ih =>
    rcases List.pairwise_cons.mp h with ⟨hy, hys⟩
    by_cases hxy : x.priority ≤ y.priority
    · simp only [insertByPriority, if_pos hxy]
      refine List.pairwise_cons.mpr ⟨?_, h⟩
      intro b hb
      rcases List.mem_cons.mp hb with rfl | hb
      · exact hxy
      · exact le_trans hxy (hy b hb)
    · simp only [insertByPriority, if_neg hxy]
      refine List.pairwise_cons.mpr ⟨?_, ih hys⟩
      intro b hb
      rcases (mem_insertByPriority x b ys).mp hb with rfl | hb
      · exact le_of_lt (lt_of_not_le hxy)
      · exact hy b hb

theorem pairwise_sortByPriority (l : List ProviderConfig) :
    (sortByPriority l).Pairwise (fun a b => a.priority ≤ b.priority) := by
  induction l with
  | nil => simp [sortByPriority]
  | cons x xs ih => exact pairwise_insertByPriority x _ ih

theorem autoSelectLoop_min (detection : List ProviderDetectionResult)
    (l : List ProviderConfig)
    (hs : l.Pairwise (fun a b => a.priority ≤ b.priority)) (n : ProviderName)
    (h : autoSelectLoop detection (fun _ => true) l = some n) :
    ∃ c ∈ l, c.name = n ∧ isConnectedCandidate detection c = true ∧
      ∀ c' ∈ l, isConnectedCandidate detection c' = true →
        c.priority ≤ c'.priority := by
  induction l with
  | nil => simp [autoSelectLoop] at h
  | cons c rest ih =>
    rcases List.pairwise_cons.mp hs with ⟨hc, hrest⟩
    by_cases hcand : isConnectedCandidate detection c
    · simp [autoSelectLoop, hcand] at h
      refine ⟨c, List.mem_cons_self c rest, h, hcand, ?_⟩
      intro c' hc' _
      rcases List.mem_cons.mp hc' with rfl | hc'
      · exact le_refl _
      · exact hc c' hc'
    · simp only [autoSelectLoop, if_neg hcand] at h
      rcases ih hrest h with ⟨c₀, hc₀mem, hc₀n, hc₀cand, hc₀min⟩
      refine ⟨c₀, List.mem_cons_of_mem c hc₀mem, hc₀n, hc₀cand, ?_⟩
      intro c' hc' hcand'
      rcases List.mem_cons.mp hc' with rfl | hc'
      · exact absurd hcand' (by simpa using hcand)
      · exact hc₀min c' hc' hcand'

theorem autoSelectLoop_ne_none (detection : List ProviderDetectionResult)
    (l : List ProviderConfig) (c : ProviderConfig) (hc : c ∈ l)
    (hcand : isConnectedCandidate detection c = true) :
    autoSelectLoop detection (fun _ => true) l ≠ none := by
  induction l with
  | nil => cases hc
  | cons a rest ih =>
    by_cases ha : isConnectedCandidate detection a
    · simp [autoSelectLoop, ha]
    · rcases List.mem_cons.mp hc with rfl | hc
      · exact absurd hcand (by simpa using ha)
      · simpa [autoSelectLoop, ha] using ih hc

/-- A detection pass of the claim's concrete scenario: groq probes fine but its
round trip fails (connected = false), ollama and lmstudio are reachable. -/
def exampleBehavior : ProviderName → AdapterBehavior
  | .groq =>
      { isAvailable := .ok true
        getStatus := .ok { available := true, connected := false,
                           error := some "Connection failed" }
        listModels := .ok [] }
  | .ollama =>
      { isAvailable := .ok true
        getStatus := .ok { available := true, connected := true }
        listModels := .ok [] }
  | .lmstudio =>
      { isAvailable := .ok true
        getStatus := .ok { available := true, connected := true }
        listModels := .ok [] }

/-- C1: whenever auto-select (with every `initialize()` succeeding) returns a
backend, that backend is enabled, its detection result is available and
connected, and its priority number is minimal among all enabled backends whose
detection result is available and connected; and in the concrete scenario with
default priorities (groq 1, ollama 2, lmstudio 3) and connectivity
groq = false, ollama = true, lmstudio = true, auto-select picks ollama. -/
theorem autoSelectProvider_picks_lowest_priority :
    (∀ (configs : List ProviderConfig) (behavior : ProviderName → AdapterBehavior)
        (n : ProviderName),
        autoSelectProvider configs behavior (fun _ => true) = some n →
        ∃ c ∈ configs, c.name = n ∧ c.enabled = true ∧
          isConnectedCandidate (detectProviders behavior) c = true ∧
          ∀ c' ∈ configs, c'.enabled = true →
            isConnectedCandidate (detectProviders behavior) c' = true →
            c.priority ≤ c'.priority) ∧
    (∀ (configs : List ProviderConfig) (behavior : ProviderName → AdapterBehavior),
        (∃ c ∈ configs, c.enabled = true ∧
          isConnectedCandidate (detectProviders behavior) c = true) →
        autoSelectProvider configs behavior (fun _ => true) ≠ none) ∧
    autoSelectProvider defaultProviderConfigs exampleBehavior (fun _ => true) =
      some ProviderName.ollama := by
  refine ⟨?_, ?_, rfl⟩
  · intro configs behavior n h
    rcases autoSelectLoop_min (detectProviders behavior)
        (sortByPriority (configs.filter (fun c => c.enabled)))
        (pairwise_sortByPriority _) n h with ⟨c, hcmem, hname, hcand, hminp⟩
    rcases List.mem_filter.mp ((mem_sortByPriority c _).mp hcmem) with ⟨hcc, hce⟩
    refine ⟨c, hcc, hname, hce, hcand, ?_⟩
    intro c' hc'mem hc'en hc'cand
    exact hminp c'
      ((mem_sortByPriority c' _).mpr (List.mem_filter.mpr ⟨hc'mem, hc'en⟩)) hc'cand
  · intro configs behavior hex
    rcases hex with ⟨c, hcmem, hcen, hccand⟩
    exact autoSelectLoop_ne_none (detectProviders behavior) _ c
      ((mem_sortByPriority c _).mpr (List.mem_filter.mpr ⟨hcmem, hcen⟩)) hccand

/-- Witness for C1: the general minimality and completeness statements applied
to the concrete scenario, whose selection is ollama. -/
theorem autoSelectProvider_picks_lowest_priority_witness :
    (∃ c ∈ defaultProviderConfigs, c.name = ProviderName.ollama ∧ c.enabled = true ∧
      isConnectedCandidate (detectProviders exampleBehavior) c = true ∧
      ∀ c' ∈ defaultProviderConfigs, c'.enabled = true →
        isConnectedCandidate (detectProviders exampleBehavior) c' = true →
        c.priority ≤ c'.priority) ∧
    autoSelectProvider defaultProviderConfigs exampleBehavior (fun _ => true) ≠ none :=
  ⟨autoSelectProvider_picks_lowest_priority.1 defaultProviderConfigs exampleBehavior
     ProviderName.ollama (by rfl),
   autoSelectProvider_picks_lowest_priority.2.1 defaultProviderConfigs exampleBehavior
     ⟨{ name := .ollama, enabled := true, priority := 2 }, by decide, rfl, rfl⟩⟩

/-- `isValidProvider` of src/providers/index.ts: `name in PROVIDERS`. -/
def isValidProvider (n : ProviderName) : Bool :=
  getAvailableProviders.contains n

theorem isValidProvider_true (n : ProviderName) : isValidProvider n = true := by
  cases n <;> rfl

/-- The mutable state of a `ProviderManager`: the adapter-instance registry,
the active provider (`activeProvider`, by name — the registry guarantees one
instance per name), the provider configurations, and a trace of the adapters
on which `cleanup()` has been invoked. -/
structure MState where
  registry : Registry := {}
  active : Option ProviderName := none
  configs : List ProviderConfig := defaultProviderConfigs
  cleanupLog : List ProviderName := []
deriving DecidableEq, Repr

/-- `ProviderManager.setActiveProvider`, with the state threaded explicitly so
that the state at the point of a throw is observable.  `statusOf` is the oracle
for the fresh `provider.getStatus()` round trip (`Except.error` models it
throwing, which the source does not catch), and `initRes` for the
`provider.initialize()` call.  The first component is the call's outcome
(`Except.error msg` models `throw new Error(msg)` / a propagated throw), the
second the manager state after the call. -/
def setActiveProviderRun (s : MState) (name : ProviderName)
    (statusOf : ProviderName → Except String ProviderStatus)
    (initRes : ProviderName → Except String Unit) : Except String Unit × MState :=
  if !isValidProvider name then
    (.error ("Invalid provider name: " ++ providerNameStr name), s)
  else
    let s1 := { s with registry := (getProviderInstance s.registry name).2 }
    match statusOf name with
    | .error e => (.error e, s1)
    | .ok status =>
      if !status.connected then
        (.error ("Provider " ++ providerNameStr name ++ " is not available or connected"),
         s1)
      else
        let s2 :=
          match s1.active with
          | some prev =>
            if prev ≠ name then { s1 with cleanupLog := s1.cleanupLog ++ [prev] }
            else s1
          | none => s1
        match initRes name with
        | .error e => (.error e, s2)
        | .ok _ => (.ok (), { s2 with active := some name })

/-- C4: switching to a provider whose fresh status reports `connected = false`
throws the explanatory `Provider <name> is not available or connected` error,
and leaves the manager's active provider exactly as it was; no `cleanup()` is
invoked on it. -/
theorem setActiveProvider_disconnected_unchanged (s : MState) (name : ProviderName)
    (statusOf : ProviderName → Except String ProviderStatus)
    (initRes : ProviderName → Except String Unit) (st : ProviderStatus)
    (hst : statusOf name = .ok st) (hconn : st.connected = false) :
    (setActiveProviderRun s name statusOf initRes).1 =
      .error ("Provider " ++ providerNameStr name ++ " is not available or connected") ∧
    (setActiveProviderRun s name statusOf initRes).2.active = s.active ∧
    (setActiveProviderRun s name statusOf initRes).2.cleanupLog = s.cleanupLog := by
  unfold setActiveProviderRun
  simp [isValidProvider_true, hst, hconn]

/-- A getStatus oracle under which every backend answers but none is connected. -/
def statusAllDown : ProviderName → Except String ProviderStatus :=
  fun _ => .ok { available := true, connected := false }

/-- An `initialize()` oracle under which every initialization succeeds. -/
def initAllOk : ProviderName → Except String Unit :=
  fun _ => .ok ()

/-- A manager state in which groq is the active provider. -/
def stateActiveGroq : MState :=
  { active := some ProviderName.groq }

/-- Witness for C4: with groq active, switching to ollama while ollama's fresh
status is disconnected fails with the explanatory message and leaves groq
active, with no cleanup call recorded. -/
theorem setActiveProvider_disconnected_unchanged_witness :
    (setActiveProviderRun stateActiveGroq ProviderName.ollama statusAllDown initAllOk).1 =
      .error "Provider ollama is not available or connected" ∧
    (setActiveProviderRun stateActiveGroq ProviderName.ollama statusAllDown initAllOk).2.active =
      some ProviderName.groq ∧
    (setActiveProviderRun stateActiveGroq ProviderName.ollama statusAllDown initAllOk).2.cleanupLog =
      [] :=
  setActiveProvider_disconnected_unchanged stateActiveGroq ProviderName.ollama
    statusAllDown initAllOk { available := true, connected := false } rfl rfl

/-- The `for` loop of `ProviderManager.failover` over the sorted configs
(current provider already excluded): each connected-and-available candidate is
tried via `setActiveProvider`; a throw is caught and the loop continues; on
success the new active provider is returned. -/
def failoverLoop (statusOf : ProviderName → Except String ProviderStatus)
    (initRes : ProviderName → Except String Unit)
    (detection : List ProviderDetectionResult) :
    List ProviderConfig → MState → Option ProviderName × MState
  | [], s => (none, s)
  | c :: rest, s =>
    if isConnectedCandidate detection c then
      match setActiveProviderRun s c.name statusOf initRes with
      | (.ok _, s') => (some c.name, s')
      | (.error _, s') => failoverLoop statusOf initRes detection rest s'
    else failoverLoop statusOf initRes detection rest s

/-- `ProviderManager.failover`: remember the active provider's name, call
`cleanup()` on it and null the active reference, run a detection pass, and try
the enabled configs other than the remembered name in priority order. -/
def failoverRun (s : MState) (behavior : ProviderName → AdapterBehavior)
    (statusOf : ProviderName → Except String ProviderStatus)
    (initRes : ProviderName → Except String Unit) : Option ProviderName × MState :=
  let currentName := s.active
  let s1 :=
    match s.active with
    | some p => { s with cleanupLog := s.cleanupLog ++ [p], active := none }
    | none => s
  let detection := detectProviders behavior
  failoverLoop statusOf initRes detection
    (sortByPriority (s1.configs.filter (fun c => c.enabled && (some c.name != currentName))))
    s1

theorem failoverLoop_some_mem (statusOf : ProviderName → Except String ProviderStatus)
    (initRes : ProviderName → Except String Unit)
    (detection : List ProviderDetectionResult) (l : List ProviderConfig)
    (s : MState) (n : ProviderName)
    (h : (failoverLoop statusOf initRes detection l s).1 = some n) :
    ∃ c ∈ l, c.name = n := by
  induction l generalizing s with
  | nil => simp [failoverLoop] at h
  | cons c rest ih =>
    unfold failoverLoop at h
    split at h
    · split at h
      · exact ⟨c, List.mem_cons_self c rest, by simpa using h⟩
      · rcases ih _ h with ⟨c₀, hc₀, hn⟩
        exact ⟨c₀, List.mem_cons_of_mem c hc₀, hn⟩
    · rcases ih _ h with ⟨c₀, hc₀, hn⟩
      exact ⟨c₀, List.mem_cons_of_mem c hc₀, hn⟩

/-- C5: a provider returned by `failover()` is never the provider that was
active when `failover()` was invoked — whatever the detection pass (even one
still reporting the failed provider as connected), the status oracle and the
initialization outcomes. -/
theorem failover_never_reselects_failed (s : MState)
    (behavior : ProviderName → AdapterBehavior)
    (statusOf : ProviderName → Except String ProviderStatus)
    (initRes : ProviderName → Except String Unit)
    (p n : ProviderName) (hp : s.active = some p)
    (h : (failoverRun s behavior statusOf initRes).1 = some n) : n ≠ p := by
  unfold failoverRun at h
  rw [hp] at h
  rcases failoverLoop_some_mem _ _ _ _ _ _ h with ⟨c, hc, rfl⟩
  have hmem := List.mem_filter.mp ((mem_sortByPriority c _).mp hc)
  have hne := (Bool.and_eq_true _ _).mp hmem.2 |>.2
  simpa using hne

/-- A getStatus oracle matching `exampleBehavior`: groq down, local backends up. -/
def statusLocalUp : ProviderName → Except String ProviderStatus
  | .groq => .ok { available := true, connected := false, error := some "Connection failed" }
  | .ollama => .ok { available := true, connected := true }
  | .lmstudio => .ok { available := true, connected := true }

/-- Witness for C5: with groq active and the local backends reachable,
failover lands on ollama, which indeed differs from groq. -/
theorem failover_never_reselects_failed_witness :
    (failoverRun stateActiveGroq exampleBehavior statusLocalUp initAllOk).1 =
      some ProviderName.ollama ∧
    ProviderName.ollama ≠ ProviderName.groq :=
  ⟨rfl,
   failover_never_reselects_failed stateActiveGroq exampleBehavior statusLocalUp
     initAllOk ProviderName.groq ProviderName.ollama rfl rfl⟩

theorem setActiveProviderRun_active_none (s : MState) (n : ProviderName)
    (statusOf : ProviderName → Except String ProviderStatus)
    (initRes : ProviderName → Except String Unit) (hact : s.active = none) :
    (setActiveProviderRun s n statusOf initRes).2.cleanupLog = s.cleanupLog ∧
    (∀ e, (setActiveProviderRun s n statusOf initRes).1 = Except.error e →
      (setActiveProviderRun s n statusOf initRes).2.active = none) := by
  unfold setActiveProviderRun
  cases hst : statusOf n with
  | error e => simp [isValidProvider_true, hst, hact]
  | ok st =>
    cases hc : st.connected with
    | false => simp [isValidProvider_true, hst, hc, hact]
    | true =>
      cases hi : initRes n with
      | error e => simp [isValidProvider_true, hst, hc, hact, hi]
      | ok u => simp [isValidProvider_true, hst, hc, hact, hi]

theorem failoverLoop_invariant (statusOf : ProviderName → Except String ProviderStatus)
    (initRes : ProviderName → Except String Unit)
    (detection : List ProviderDetectionResult) (l : List ProviderConfig)
    (s : MState) (hact : s.active = none) :
    (failoverLoop statusOf initRes detection l s).2.cleanupLog = s.cleanupLog ∧
    ((failoverLoop statusOf initRes detection l s).1 = none →
      (failoverLoop statusOf initRes detection l s).2.active = none) := by
  induction l generalizing s with
  | nil => simpa [failoverLoop] using hact
  | cons c rest ih =>
    unfold failoverLoop
    split
    · rcases hrun : setActiveProviderRun s c.name statusOf initRes with ⟨res, s'⟩
      have hpres := setActiveProviderRun_active_none s c.name statusOf initRes hact
      rw [hrun] at hpres
      cases res with
      | ok u => simpa using hpres.1
      | error e =>
        have hs' : s'.active = none := hpres.2 e rfl
        rcases ih s' hs' with ⟨ih1, ih2⟩
        exact ⟨ih1.trans hpres.1, ih2⟩
    · exact ih s hact

/-- C10: `failover()` first calls `cleanup()` on the active provider and nulls
the active reference; the cleanup trace after the call is exactly the old trace
extended by the formerly active provider, and whenever `failover()` returns
null (no alternative connects), the active provider afterwards is null — the
previously active backend is not restored. -/
theorem failover_clears_active (s : MState)
    (behavior : ProviderName → AdapterBehavior)
    (statusOf : ProviderName → Except String ProviderStatus)
    (initRes : ProviderName → Except String Unit)
    (p : ProviderName) (hp : s.active = some p) :
    (failoverRun s behavior statusOf initRes).2.cleanupLog = s.cleanupLog ++ [p] ∧
    ((failoverRun s behavior statusOf initRes).1 = none →
      (failoverRun s behavior statusOf initRes).2.active = none) := by
  have hru : failoverRun s behavior statusOf initRes =
      failoverLoop statusOf initRes (detectProviders behavior)
        (sortByPriority (s.configs.filter
          (fun c => c.enabled && (some c.name != some p))))
        { s with cleanupLog := s.cleanupLog ++ [p], active := none } := by
    unfold failoverRun
    rw [hp]
  rw [hru]
  exact failoverLoop_invariant statusOf initRes (detectProviders behavior) _
    { s with cleanupLog := s.cleanupLog ++ [p], active := none } rfl

/-- Witness for C10: with groq active and every fresh status disconnected,
failover cleans up groq, fails to find an alternative, and leaves no provider
active. -/
theorem failover_clears_active_witness :
    (failoverRun stateActiveGroq exampleBehavior statusAllDown initAllOk).2.cleanupLog =
      [ProviderName.groq] ∧
    (failoverRun stateActiveGroq exampleBehavior statusAllDown initAllOk).2.active =
      none :=
  ⟨(failover_clears_active stateActiveGroq exampleBehavior statusAllDown initAllOk
      ProviderName.groq rfl).1,
   (failover_clears_active stateActiveGroq exampleBehavior statusAllDown initAllOk
      ProviderName.groq rfl).2 rfl⟩

/-- Roles of the unified `ChatMessage` type of src/providers/base.ts. -/
inductive Role
  | system
  | user
  | assistant
  | tool
deriving DecidableEq, Repr

/-- The role string sent on the wire. -/
def Role.toWire : Role → String
  | .system => "system"
  | .user => "user"
  | .assistant => "assistant"
  | .tool => "tool"

/-- `ChatMessage` of src/providers/base.ts.  `content` is declared `string` but
assistant messages fed back from a response can carry `null`; `none` models
that, and the adapters' `msg.content || ''` maps it to the empty string.  Tool
calls and schemas are `any[]` in the source; their payloads are inert data to
this runtime, so they are modelled by strings. -/
structure ChatMessage where
  role : Role
  content : Option String
  tool_calls : List String := []
  tool_call_id : Option String := none
deriving DecidableEq, Repr

/-- `ChatOptions` of src/providers/base.ts.  `temperature` is a JavaScript
number that is only ever passed through, modelled by an integer-valued field. -/
structure ChatOptions where
  model : String
  messages : List ChatMessage
  tools : List String := []
  tool_choice : Option String := none
  temperature : Option Int := none
  max_tokens : Option Nat := none
deriving DecidableEq, Repr

/-- The message record inside a unified `ChatResponse` choice. -/
structure ChoiceMessage where
  role : String
  content : Option String
  tool_calls : List String := []
deriving DecidableEq, Repr

/-- One choice of a unified `ChatResponse`. -/
structure Choice where
  message : ChoiceMessage
  finish_reason : String
deriving DecidableEq, Repr

/-- Token-usage counts of a `ChatResponse`. -/
structure Usage where
  prompt_tokens : Nat
  completion_tokens : Nat
  total_tokens : Nat
deriving DecidableEq, Repr

/-- Backend performance metrics of a `ChatResponse` (local providers). -/
structure Performance where
  total_duration : Option Nat := none
  load_duration : Option Nat := none
  prompt_eval_duration : Option Nat := none
  eval_duration : Option Nat := none
deriving DecidableEq, Repr

/-- `ChatResponse` of src/providers/base.ts. -/
structure ChatResponse where
  id : String
  choices : List Choice
  usage : Option Usage := none
  performance : Option Performance := none
deriving DecidableEq, Repr

/-- The observable result of an adapter `chat` call: a resolved response, a
rethrown AbortError, or a thrown `ProviderError(message, provider, code)`. -/
inductive ChatOutcome
  | success (r : ChatResponse)
  | abortError
  | providerError (message : String) (provider : String) (code : String)
deriving DecidableEq, Repr

/-- What the transport round trip would produce if it is performed: an OK
response body, a non-OK HTTP status with its error text, or a network-level
failure (connection refused, DNS, ...) carrying its message. -/
inductive FetchOutcome (α : Type)
  | ok (v : α)
  | httpError (status : Nat) (body : String)
  | networkError (message : String)
deriving DecidableEq, Repr

/-- A wire-format chat message (`OllamaMessage` / `LMStudioMessage`: both are
`{ role, content }`). -/
structure WireMessage where
  role : String
  content : String
deriving DecidableEq, Repr

/-- `OllamaChatResponse` (the fields `chat` reads). -/
structure OllamaWireResponse where
  message : WireMessage
  done : Bool
  total_duration : Option Nat := none
  load_duration : Option Nat := none
  prompt_eval_count : Option Nat := none
  prompt_eval_duration : Option Nat := none
  eval_count : Option Nat := none
  eval_duration : Option Nat := none
deriving DecidableEq, Repr

/-- The request body `OllamaProvider.chat` posts to `/api/chat` (the
`options` sub-object is flattened here).  Note: no tools field exists. -/
structure OllamaRequestBody where
  model : String
  messages : List WireMessage
  stream : Bool
  temperature : Option Int
  num_predict : Option Nat
deriving DecidableEq, Repr

/-- `needle` matches at the head of `hay` (char-list prefix test). -/
def charsLeading : List Char → List Char → Bool
  | [], _ => true
  | _ :: _, [] => false
  | a :: as, b :: bs => a == b && charsLeading as bs

/-- Does `needle` occur contiguously somewhere in the second list?  This is
JavaScript `hay.includes(needle)` on char lists. -/
def charsSub (needle : List Char) : List Char → Bool
  | [] => needle.isEmpty
  | h :: t => charsLeading needle (h :: t) || charsSub needle t

/-- JavaScript `s.includes(sub)`. -/
def jsIncludes (s sub : String) : Bool :=
  charsSub sub.toList s.toList

/-- The error-message translation of `OllamaProvider.chat`'s catch block for
non-abort errors (the if/else-if chain over `error.message`, with the generic
message as the default). -/
def ollamaErrorMessage (model msg : String) : String :=
  if jsIncludes msg "ECONNREFUSED" then
    "Cannot connect to Ollama. Make sure Ollama is running on localhost:11434"
  else if jsIncludes msg "model" then
    "Model \"" ++ model ++ "\" not found. Make sure the model is pulled in Ollama: ollama pull "
      ++ model
  else if jsIncludes msg "404" then
    "API endpoint not found. Check Ollama version and API compatibility."
  else if jsIncludes msg "failed to allocate" || jsIncludes msg "Metal buffer" then
    "Model \"" ++ model ++ "\" is too large for available GPU memory. Try:\n• A smaller model (e.g., /model gemma3:1b)\n• Use CPU: restart Ollama with OLLAMA_GPU_LAYERS=0\n• Free up GPU memory by closing other applications"
  else if jsIncludes msg "llama runner process has terminated" then
    "Model \"" ++ model ++ "\" crashed during execution. This usually indicates insufficient memory. Try a smaller model or restart Ollama with CPU mode."
  else
    "Ollama API request failed: " ++ msg

/-- The message translation shared by `OllamaProvider.chat` and
`LMStudioProvider.chat`:
`options.messages.map(msg => ({ role: msg.role, content: msg.content || '' }))`
— a fresh list of fresh wire records; the input list is only read. -/
def toWireMessages (msgs : List ChatMessage) : List WireMessage :=
  msgs.map (fun m => { role := m.role.toWire, content := m.content.getD "" })

/-- What an adapter `chat` call leaves behind: its outcome, the caller's
message list as it stands after the call, and the request body the transport
was given (`none` when no transport call was started). -/
structure AdapterChatResult (β : Type) where
  outcome : ChatOutcome
  msgsAfter : List ChatMessage
  requestSent : Option β
deriving DecidableEq, Repr

set_option linter.unusedVariables false in
/-- `OllamaProvider.chat`.  Environment inputs:
* `signalPreAborted` — the caller's AbortSignal is already aborted when `chat`
  is entered.  The source registers `() => controller.abort()` as an
  abort-event listener on that signal; per EventTarget semantics a listener
  added to an already-aborted signal never fires, and the source never reads
  `abortSignal.aborted`, so this flag influences nothing below — faithfully to
  the source.
* `signalAbortsDuring` — the caller aborts its signal while the fetch is in
  flight, so the registered listener fires and aborts the controller.
* `timesOut` — the adapter's own 30-second timeout fires first.
* `transport` — what the HTTP round trip to `/api/chat` would produce.
* `now` — `Date.now()`, used only for the response id.
The `signalPreAborted` flag is deliberately unused below: that is the source's
behavior, not a simplification. -/
def ollamaChat (options : ChatOptions)
    (signalPreAborted signalAbortsDuring timesOut : Bool)
    (transport : FetchOutcome OllamaWireResponse) (now : Nat) :
    AdapterChatResult OllamaRequestBody :=
  let body : OllamaRequestBody :=
    { model := options.model
      messages := toWireMessages options.messages
      stream := false
      temperature := options.temperature
      num_predict := options.max_tokens }
  let fetchAborted := signalAbortsDuring || timesOut
  if fetchAborted then
    { outcome := .abortError, msgsAfter := options.messages, requestSent := some body }
  else
    match transport with
    | .ok data =>
        let pec := data.prompt_eval_count.getD 0
        let ec := data.eval_count.getD 0
        -- `data.prompt_eval_count || data.eval_count ? {...} : undefined`
        -- (both undefined and 0 are falsy)
        let usage : Option Usage :=
          if pec != 0 || ec != 0 then
            some { prompt_tokens := pec, completion_tokens := ec,
                   total_tokens := pec + ec }
          else none
        { outcome := .success
            { id := "ollama-" ++ toString now
              choices := [{ message := { role := data.message.role,
                                         content := some data.message.content }
                            finish_reason := if data.done then "stop" else "incomplete" }]
              usage := usage
              performance := some { total_duration := data.total_duration
                                    load_duration := data.load_duration
                                    prompt_eval_duration := data.prompt_eval_duration
                                    eval_duration := data.eval_duration } }
          msgsAfter := options.messages
          requestSent := some body }
    | .httpError status text =>
        { outcome := .providerError
            (ollamaErrorMessage options.model
              ("HTTP " ++ toString status ++ ": " ++ text))
            "ollama" "CHAT_REQUEST_ERROR"
          msgsAfter := options.messages
          requestSent := some body }
    | .networkError msg =>
        { outcome := .providerError (ollamaErrorMessage options.model msg)
            "ollama" "CHAT_REQUEST_ERROR"
          msgsAfter := options.messages
          requestSent := some body }

/-- One choice of `LMStudioChatResponse`. -/
structure LMStudioWireChoice where
  message : WireMessage
  finish_reason : String
deriving DecidableEq, Repr

/-- `LMStudioChatResponse` (the fields `chat` reads). -/
structure LMStudioWireResponse where
  id : String
  choices : List LMStudioWireChoice
  usage : Option Usage := none
deriving DecidableEq, Repr

/-- The request body `LMStudioProvider.chat` posts to `/chat/completions`.
Note: no tools field exists. -/
structure LMStudioRequestBody where
  model : String
  messages : List WireMessage
  temperature : Option Int
  max_tokens : Option Nat
  stream : Bool
deriving DecidableEq, Repr

set_option linter.unusedVariables false in
/-- `LMStudioProvider.chat`; same structure and same abort-listener handling as
`ollamaChat` (60-second timeout), with the simpler catch block. -/
def lmstudioChat (options : ChatOptions)
    (signalPreAborted signalAbortsDuring timesOut : Bool)
    (transport : FetchOutcome LMStudioWireResponse) :
    AdapterChatResult LMStudioRequestBody :=
  let body : LMStudioRequestBody :=
    { model := options.model
      messages := toWireMessages options.messages
      temperature := options.temperature
      max_tokens := options.max_tokens
      stream := false }
  let fetchAborted := signalAbortsDuring || timesOut
  if fetchAborted then
    { outcome := .abortError, msgsAfter := options.messages, requestSent := some body }
  else
    match transport with
    | .ok data =>
        { outcome := .success
            { id := data.id
              choices := data.choices.map (fun ch =>
                { message := { role := ch.message.role,
                               content := some ch.message.content }
                  finish_reason := ch.finish_reason })
              usage := data.usage }
          msgsAfter := options.messages
          requestSent := some body }
    | .httpError status text =>
        { outcome := .providerError
            ("LM Studio API request failed: HTTP " ++ toString status ++ ": " ++ text)
            "lmstudio" "CHAT_REQUEST_ERROR"
          msgsAfter := options.messages
          requestSent := some body }
    | .networkError msg =>
        { outcome := .providerError ("LM Studio API request failed: " ++ msg)
            "lmstudio" "CHAT_REQUEST_ERROR"
          msgsAfter := options.messages
          requestSent := some body }

/-- One choice of the Groq SDK's completion response. -/
structure GroqWireChoice where
  message : ChoiceMessage
  finish_reason : String
deriving DecidableEq, Repr

/-- The Groq SDK's completion response (the fields `chat` reads). -/
structure GroqWireResponse where
  id : String
  choices : List GroqWireChoice
  usage : Option Usage := none
deriving DecidableEq, Repr

/-- The request `GroqProvider.chat` hands to the SDK; `options.messages` is
passed through as-is (`options.messages as any`), untranslated. -/
structure GroqRequestBody where
  model : String
  messages : List ChatMessage
  tools : List String
  tool_choice : Option String
  temperature : Option Int
  max_tokens : Option Nat
  stream : Bool
deriving DecidableEq, Repr

/-- `GroqProvider.chat`.  The caller's AbortSignal is handed directly to the
SDK (`{ signal: abortSignal }`), whose fetch checks `signal.aborted` when the
request starts (WHATWG fetch semantics): a pre-aborted signal rejects with an
AbortError before any transport work, and a later abort does the same
mid-flight.  `hasApiKey` models `process.env.GROQ_API_KEY || this.apiKey`;
when it is absent, the `initialize()` call inside the try throws
`API_KEY_MISSING`, which the catch wraps into a `CHAT_REQUEST_ERROR`. -/
def groqChat (options : ChatOptions) (hasApiKey : Bool)
    (signalPreAborted signalAbortsDuring : Bool)
    (transport : FetchOutcome GroqWireResponse) :
    AdapterChatResult GroqRequestBody :=
  if !hasApiKey then
    { outcome := .providerError
        ("Groq API request failed: Groq API key not found. Please set GROQ_API_KEY environment variable or use /login command.")
        "groq" "CHAT_REQUEST_ERROR"
      msgsAfter := options.messages
      requestSent := none }
  else
    let body : GroqRequestBody :=
      { model := options.model
        messages := options.messages
        tools := options.tools
        tool_choice := options.tool_choice
        temperature := options.temperature
        max_tokens := options.max_tokens
        stream := false }
    if signalPreAborted then
      { outcome := .abortError, msgsAfter := options.messages, requestSent := none }
    else if signalAbortsDuring then
      { outcome := .abortError, msgsAfter := options.messages, requestSent := some body }
    else
      match transport with
      | .ok data =>
          { outcome := .success
              { id := data.id
                choices := data.choices.map (fun ch =>
                  { message := ch.message, finish_reason := ch.finish_reason })
                usage := data.usage }
            msgsAfter := options.messages
            requestSent := some body }
      | .httpError status text =>
          { outcome := .providerError
              ("Groq API request failed: HTTP " ++ toString status ++ ": " ++ text)
              "groq" "CHAT_REQUEST_ERROR"
            msgsAfter := options.messages
            requestSent := some body }
      | .networkError msg =>
          { outcome := .providerError ("Groq API request failed: " ++ msg)
              "groq" "CHAT_REQUEST_ERROR"
            msgsAfter := options.messages
            requestSent := some body }

/-- `supportsTools()` of each provider class: groq yes, ollama and lmstudio no. -/
def supportsTools : ProviderName → Bool
  | .groq => true
  | .ollama => false
  | .lmstudio => false

/-- A one-message chat request. -/
def exampleMessages : List ChatMessage :=
  [{ role := .user, content := some "hello" }]

/-- A plain chat request (no tools). -/
def exampleOpts : ChatOptions :=
  { model := "llama3", messages := exampleMessages }

/-- A successful Ollama wire response. -/
def exampleWire : OllamaWireResponse :=
  { message := { role := "assistant", content := "hi" }, done := true }

/-- C3 (refutation by evaluation): a chat request on the Ollama adapter whose
caller token is already cancelled when `chat` starts is NOT resolved with the
cancelled outcome: the abort listener the source registers on the
already-aborted signal never fires, the transport call proceeds, and `chat`
returns the transport's outcome — a success here, and a generic
CHAT_REQUEST_ERROR when the transport fails.  (Third conjunct: cancelling
while the call is in flight does produce the cancelled outcome, so the defect
is exactly the pre-cancelled case.) -/
theorem ollamaChat_preCancelled_not_cancelled :
    (ollamaChat exampleOpts true false false (.ok exampleWire) 7).outcome =
      .success
        { id := "ollama-7"
          choices := [{ message := { role := "assistant", content := some "hi" }
                        finish_reason := "stop" }]
          performance := some {} } ∧
    (ollamaChat exampleOpts true false false
        (.networkError "connect ECONNREFUSED 127.0.0.1:11434") 7).outcome =
      .providerError
        "Cannot connect to Ollama. Make sure Ollama is running on localhost:11434"
        "ollama" "CHAT_REQUEST_ERROR" ∧
    (ollamaChat exampleOpts false true false (.ok exampleWire) 7).outcome =
      .abortError :=
  ⟨rfl, rfl, rfl⟩

/-- A chat request carrying a non-empty tool schema list. -/
def exampleToolOpts : ChatOptions :=
  { model := "llama3", messages := exampleMessages, tools := ["get_weather schema"] }

/-- C6 counterexample: a chat request with a non-empty tool schema list sent to
the Ollama adapter (supports-tool-calls = false) does NOT return a capability
error: the transport call is performed (with the tools silently dropped from
the request body) and its outcome — here a plain success — is returned. -/
theorem ollamaChat_tools_no_capability_error :
    (ollamaChat exampleToolOpts false false false (.ok exampleWire) 7).requestSent =
      some { model := "llama3"
             messages := [{ role := "user", content := "hello" }]
             stream := false
             temperature := none
             num_predict := none } ∧
    (ollamaChat exampleToolOpts false false false (.ok exampleWire) 7).outcome =
      .success
        { id := "ollama-7"
          choices := [{ message := { role := "assistant", content := some "hi" }
                        finish_reason := "stop" }]
          performance := some {} } ∧
    supportsTools .ollama = false :=
  ⟨rfl, rfl, rfl⟩

/-- C6 amended: both local adapters ignore the tool schema list entirely — a
`chat` call behaves identically (same outcome, same transport request, tools
never serialized) whatever `tools` contains — even though their
`supportsTools()` flag is false; no capability error is produced and the
transport call is not suppressed. -/
theorem localChat_ignores_tools :
    (∀ (opts : ChatOptions) (ts : List String) (a b c : Bool)
        (tr : FetchOutcome OllamaWireResponse) (now : Nat),
        ollamaChat { opts with tools := ts } a b c tr now = ollamaChat opts a b c tr now) ∧
    (∀ (opts : ChatOptions) (ts : List String) (a b c : Bool)
        (tr : FetchOutcome LMStudioWireResponse),
        lmstudioChat { opts with tools := ts } a b c tr = lmstudioChat opts a b c tr) ∧
    supportsTools .ollama = false ∧ supportsTools .lmstudio = false :=
  ⟨fun _ _ _ _ _ _ _ => rfl, fun _ _ _ _ _ _ => rfl, rfl, rfl⟩

/-- C9: after any `chat` call on any of the three adapters — whatever the
cancellation timing and whatever the transport produced — the caller's message
sequence is exactly what it was before the call: the adapters translate into
fresh wire-message lists and never write to the input. -/
theorem chat_preserves_messages :
    (∀ (opts : ChatOptions) (a b c : Bool) (tr : FetchOutcome OllamaWireResponse)
        (now : Nat), (ollamaChat opts a b c tr now).msgsAfter = opts.messages) ∧
    (∀ (opts : ChatOptions) (a b c : Bool) (tr : FetchOutcome LMStudioWireResponse),
        (lmstudioChat opts a b c tr).msgsAfter = opts.messages) ∧
    (∀ (opts : ChatOptions) (k a b : Bool) (tr : FetchOutcome GroqWireResponse),
        (groqChat opts k a b tr).msgsAfter = opts.messages) := by
  refine ⟨fun opts a b c tr now => ?_, fun opts a b c tr => ?_, fun opts k a b tr => ?_⟩
  · cases b <;> cases c <;> cases tr <;> rfl
  · cases b <;> cases c <;> cases tr <;> rfl
  · cases k <;> cases a <;> cases b <;> cases tr <;> rfl

/-- `Model & { provider: string }` as produced by `getAllModels`
(`{ ...model, provider: result.provider }`). -/
structure ProviderModel extends Model where
  provider : String
deriving DecidableEq, Repr

/-- `ProviderManager.getAllModels` given a detection pass: every model of every
result that has a model list, tagged with its provider's name, in scan order. -/
def getAllModels (detection : List ProviderDetectionResult) : List ProviderModel :=
  detection.flatMap (fun r =>
    match r.models with
    | some ms => ms.map (fun m => { toModel := m, provider := providerNameStr r.provider })
    | none => [])

/-- JavaScript `s.toLowerCase()`, as a char list. -/
def lowerChars (s : String) : List Char :=
  s.toList.map Char.toLower

/-- The filter predicate of `ProviderManager.findModels` for one model, with
`lowerQuery` already lowercased:
`id.toLowerCase().includes(lowerQuery) || name... || (description && description.toLowerCase().includes(lowerQuery)) || provider...`.
The `description && ...` conjunct is falsy when `description` is undefined or
the empty string (JavaScript truthiness). -/
def modelMatchesQuery (lowerQuery : List Char) (m : ProviderModel) : Bool :=
  charsSub lowerQuery (lowerChars m.id) ||
  charsSub lowerQuery (lowerChars m.name) ||
  (match m.description with
   | some d => d != "" && charsSub lowerQuery (lowerChars d)
   | none => false) ||
  charsSub lowerQuery (lowerChars m.provider)

/-- `ProviderManager.findModels`: `getAllModels()` filtered by the
case-insensitive substring predicate. -/
def findModels (detection : List ProviderDetectionResult) (query : String) :
    List ProviderModel :=
  (getAllModels detection).filter (modelMatchesQuery (lowerChars query))

/-- The claim's predicate, written from the spec's words: the model's id, name,
description, or provider name contains the query case-insensitively (no
truthiness subtlety on the description). -/
def modelMatchesSpec (query : String) (m : ProviderModel) : Bool :=
  charsSub (lowerChars query) (lowerChars m.id) ||
  charsSub (lowerChars query) (lowerChars m.name) ||
  (match m.description with
   | some d => charsSub (lowerChars query) (lowerChars d)
   | none => false) ||
  charsSub (lowerChars query) (lowerChars m.provider)

theorem charsSub_nil (l : List Char) : charsSub [] l = true := by
  cases l <;> simp [charsSub, charsLeading]

theorem lowerChars_empty : lowerChars "" = [] := rfl

/-- The code's predicate and the spec's predicate agree on every model: the
only divergence candidate is an empty description, and an empty string can
only contain the empty query, for which the id conjunct already matches. -/
theorem modelMatches_code_eq_spec (q : String) (m : ProviderModel) :
    modelMatchesQuery (lowerChars q) m = modelMatchesSpec q m := by
  unfold modelMatchesQuery modelMatchesSpec
  cases hq : lowerChars q with
  | nil => simp [charsSub_nil]
  | cons c cs =>
    cases hd : m.description with
    | none => rfl
    | some d =>
      by_cases hde : d = ""
      · subst hde
        simp [lowerChars_empty, charsSub, List.isEmpty]
      · have hb : (d != "") = true := bne_iff_ne.mpr hde
        simp [hb]

/-- C7: for every query, `findModels` returns exactly the models of
`getAllModels` (over the same detection outcome) whose id, name, description,
or provider name contains the query case-insensitively; and with the empty
query it returns exactly `getAllModels`. -/
theorem findModels_case_insensitive_filter :
    (∀ (detection : List ProviderDetectionResult) (q : String),
        findModels detection q = (getAllModels detection).filter (modelMatchesSpec q)) ∧
    (∀ detection : List ProviderDetectionResult,
        findModels detection "" = getAllModels detection) := by
  constructor
  · intro d q
    unfold findModels
    exact List.filter_congr (fun m _ => modelMatches_code_eq_spec q m)
  · intro d
    unfold findModels
    apply List.filter_eq_self.mpr
    intro m _
    show modelMatchesQuery [] m = true
    unfold modelMatchesQuery
    simp [charsSub_nil]

end GroqCli
